import Mathlib

/-!
Shallow embedding of the submission-lifecycle and review module of the
dental coursework backend (routers/students.py, routers/submissions.py,
app/models.py).  Paths, filesystem state and database state are modelled
explicitly; each router handler becomes a pure function from the request
inputs and the current state to a result plus the new state.
-/

namespace DentalSub

/-! ### String primitives

The Python string operations the routers rely on (`str.lower`, `str.strip`,
`str.split`, `str.replace`, `str.startswith`) are modelled character-wise
over `String.data`, so that every definition evaluates by kernel reduction
on concrete inputs. -/

/-- Python `str.lower` (role strings and extensions here are ASCII). -/
def lowerStr (s : String) : String :=
  ⟨s.data.map Char.toLower⟩

/-- Python `str.strip()`: drop leading and trailing whitespace. -/
def trimStr (s : String) : String :=
  ⟨((s.data.dropWhile Char.isWhitespace).reverse.dropWhile
      Char.isWhitespace).reverse⟩

/-- Python `str.split(sep)` for a one-character separator. -/
def splitOnList (sep : Char) : List Char → List (List Char)
  | [] => [[]]
  | c :: rest =>
    let r := splitOnList sep rest
    if c = sep then [] :: r
    else
      match r with
      | [] => [[c]]
      | h :: t => (c :: h) :: t

def splitStr (s : String) (sep : Char) : List String :=
  (splitOnList sep s.data).map (fun l => ⟨l⟩)

/-- Python `str.startswith`. -/
def startsWithStr (s pre : String) : Bool :=
  pre.data.isPrefixOf s.data

/-- Python `str.replace`: replace every non-overlapping occurrence, left to right.
The fuel argument (instantiated with the length of the scanned list) only
makes the recursion structural; it never runs out. -/
def replaceCore (pat repl : List Char) : Nat → List Char → List Char
  | _, [] => []
  | 0, l => l
  | fuel + 1, c :: rest =>
    if pat.isPrefixOf (c :: rest) then
      repl ++ replaceCore pat repl fuel ((c :: rest).drop pat.length)
    else
      c :: replaceCore pat repl fuel rest

/-- Python `str.replace` (the single call site uses the non-empty pattern
`"/uploads/"`). -/
def replaceStr (s pat repl : String) : String :=
  if pat = "" then s
  else ⟨replaceCore pat.data repl.data s.data.length s.data⟩

/-! ### Path model (pathlib semantics used by the routers)

A path is a flag saying whether it is absolute plus a list of components.
`parsePath` mirrors `pathlib.Path(s)`: it splits on `/`, drops empty
components and `.` components (pathlib normalises those away at
construction) and records whether the string started with `/`. -/

structure FPath where
  absolute : Bool
  comps : List String
deriving DecidableEq, Repr

def parsePath (s : String) : FPath :=
  ⟨startsWithStr s "/", (splitStr s '/').filter (fun c => c != "" && c != ".")⟩

/-- Model of `pathlib.Path(s).name`: the final component, `""` for a root or empty path. -/
def pathName (s : String) : String :=
  (parsePath s).comps.getLastD ""

/-- Model of `pathlib.Path(s).suffix`: `"." ++ part after the last dot` of the final
component, provided the dot is neither the first nor the last character of
that component (CPython: `0 < name.rfind('.') < len(name) - 1`). -/
def pathSuffix (s : String) : String :=
  let nm := pathName s
  let parts := splitStr nm '.'
  if parts.length ≥ 2 then
    let lastP := parts.getLastD ""
    if lastP != "" && parts.dropLast != [""] then "." ++ lastP else ""
  else ""

/-- The `/` operator of `pathlib`: an absolute right operand replaces the left. -/
def joinPath (p : FPath) (s : String) : FPath :=
  let q := parsePath s
  if q.absolute then q else ⟨p.absolute, p.comps ++ q.comps⟩

/-- Collapse `..` components (POSIX resolution; at the root `..` stays put). -/
def normalizeComps (cs : List String) : List String :=
  cs.foldl (fun acc c => if c = ".." then acc.dropLast else acc ++ [c]) []

/-- The process working directory the service runs in (abstract but fixed:
relative configured paths such as `./uploads` resolve against it). -/
def CWD : FPath := ⟨true, ["srv", "app"]⟩

/-- Model of `Path.resolve()`: make absolute against the working directory and
normalise `..` components. -/
def resolvePath (p : FPath) : FPath :=
  ⟨true, normalizeComps ((if p.absolute then [] else CWD.comps) ++ p.comps)⟩

/-- Model of `Path.is_relative_to`: component-wise prefix test (both sides are already
resolved wherever the routers call it). -/
def isRelativeTo (p q : FPath) : Bool :=
  p.absolute == q.absolute && q.comps.isPrefixOf p.comps

/-- Configured `settings.UPLOAD_DIR = "./uploads"`; both routers build their module-level
`UPLOAD_DIR` from it. -/
def UPLOAD_DIR : FPath := parsePath "./uploads"

/-! ### Filesystem model

The filesystem maps resolved absolute paths to file contents (bytes as
naturals).  Lookups, writes and unlinks all go through `resolvePath`,
matching what a POSIX filesystem does with the unresolved paths the code
passes around. -/

def FS : Type := FPath → Option (List Nat)

def FS.isFile (fs : FS) (p : FPath) : Bool :=
  (fs (resolvePath p)).isSome

def FS.write (fs : FS) (p : FPath) (content : List Nat) : FS :=
  fun q => if q = resolvePath p then some content else fs q

def FS.unlink (fs : FS) (p : FPath) : FS :=
  fun q => if q = resolvePath p then none else fs q

/-! ### Data model (app/models.py)

Only the columns the embedded handlers read or write are carried; display
columns (titles, descriptions, ...) do not influence any modelled operation.
Timestamps are abstract instants (`Int`). -/

structure User where
  id : Int
  role : String
deriving DecidableEq, Repr

structure Assignment where
  assignment_id : Int
  /-- Column `deadline` is non-nullable in models.py. -/
  deadline : Int
deriving DecidableEq, Repr

structure Submission where
  submission_id : Int
  assignment_id : Int
  student_id : Int
  original_filename : String
  file_path : String
  file_type : String
  submitted_at : Int
  status : String
  student_notes : Option String
  mime_type : Option String
  file_size : Option Int
deriving DecidableEq, Repr

/-- Table `SubmissionFeedback`: `doctor_id` is declared NOT NULL in models.py, but
the in-memory ORM object can hold `None` before the INSERT is flushed, so the
field is an `Option`; the commit step checks the NOT NULL constraint. -/
structure SubmissionFeedback where
  feedback_id : Int
  submission_id : Int
  doctor_id : Option Int
  feedback_text : Option String
  grade : Option Rat
  created_at : Int
deriving DecidableEq, Repr

structure DB where
  assignments : List Assignment
  submissions : List Submission
  feedbacks : List SubmissionFeedback
deriving DecidableEq, Repr

structure HTTPError where
  code : Nat
  detail : String
deriving DecidableEq, Repr

def DB.findAssignment (db : DB) (aid : Int) : Option Assignment :=
  db.assignments.find? (fun a => a.assignment_id == aid)

def DB.findSubmission (db : DB) (sid : Int) : Option Submission :=
  db.submissions.find? (fun s => s.submission_id == sid)

def DB.findFeedback (db : DB) (sid : Int) : Option SubmissionFeedback :=
  db.feedbacks.find? (fun f => f.submission_id == sid)

def DB.hasFeedbackFor (db : DB) (sid : Int) : Bool :=
  db.feedbacks.any (fun f => f.submission_id == sid)

/-- The NOT NULL check the database runs on `SubmissionFeedback.doctor_id`
when a transaction touching the table is committed. -/
def DB.feedbackDoctorNotNull (db : DB) : Bool :=
  db.feedbacks.all (fun f => f.doctor_id.isSome)

/-- Autoincrement primary key for a fresh Submission row. -/
def DB.nextSubmissionId (db : DB) : Int :=
  (db.submissions.foldl (fun m s => max m s.submission_id) 0) + 1

/-- Autoincrement primary key for a fresh SubmissionFeedback row. -/
def DB.nextFeedbackId (db : DB) : Int :=
  (db.feedbacks.foldl (fun m f => max m f.feedback_id) 0) + 1

/-! ### Shared helpers of the two routers -/

/-- Helper `_require_admin_or_doctor` (submissions.py): role check, lower-cased. -/
def require_admin_or_doctor (u : User) : Bool :=
  lowerStr u.role == "admin" || lowerStr u.role == "doctor"

def is_doctor (u : User) : Bool :=
  lowerStr u.role == "doctor"

/-- Helper `_require_student` (students.py). -/
def require_student_ok (u : User) : Bool :=
  lowerStr u.role == "student"

/-- Constant `VALID_STATUSES`, identical in both routers. -/
def VALID_STATUSES : List String :=
  ["Pending", "Accepted", "Rejected", "NeedsRevision"]

def IMAGE_EXTS : List String :=
  [".jpg", ".jpeg", ".png", ".gif", ".bmp", ".webp", ".tif", ".tiff"]
def PPT_EXTS : List String := [".ppt", ".pptx"]
def PDF_EXTS : List String := [".pdf"]
def OTHER_ALLOWED_EXTS : List String :=
  [".doc", ".docx", ".txt", ".rtf", ".zip", ".rar", ".7z",
   ".xlsx", ".xls", ".csv", ".md"]
def ALLOWED_EXTS : List String :=
  IMAGE_EXTS ++ PPT_EXTS ++ PDF_EXTS ++ OTHER_ALLOWED_EXTS

/-- Helper `_infer_file_type` (students.py). -/
def infer_file_type (filename : String) : String :=
  let ext := lowerStr (pathSuffix filename)
  if IMAGE_EXTS.contains ext then "Image"
  else if PPT_EXTS.contains ext then "PPT"
  else if PDF_EXTS.contains ext then "PDF"
  else "Other"

/-- Helper `_safe_name`: keep the basename only, `"upload"` for an empty name. -/
def safe_name (filename : String) : String :=
  pathName (if filename = "" then "upload" else filename)

/-- Helper `_unique_disk_name`: `uuid4().hex` is an input of the model. -/
def unique_disk_name (uuidHex : String) (sName : String) : String :=
  uuidHex ++ "_" ++ sName

def public_path_for (uniqueName : String) : String :=
  "/uploads/" ++ uniqueName

/-- Helper `_assignment_time_window_ok` (students.py): of the probed columns only
`deadline` exists in models.py (none of the start-window names do), and
`deadline` is non-nullable, so the check reduces to `¬ (now > deadline)`. -/
def assignment_time_window_ok (now : Int) (a : Assignment) : Bool :=
  !(now > a.deadline)

/-- Helper `_submission_is_assigned_to_doctor` (submissions.py) probes the columns
`doctor_id`, `assigned_doctor_id`, `reviewer_id` on Submission and
`doctor_id`, `reviewer_id` on Assignment; none of them exist in models.py,
so the fallback `True` is reached for every submission. -/
def submission_is_assigned_to_doctor (_sub : Submission) (_doctorUserId : Int) : Bool :=
  true

/-- Helper `_ensure_submission_ownership` (students.py). -/
def ensure_submission_ownership (sub : Submission) (userId : Int) :
    Except HTTPError Unit :=
  if sub.student_id != userId then .error ⟨403, "Not your submission"⟩ else .ok ()

/-- Helper `_validate_submission_for_edit` (students.py). -/
def validate_submission_for_edit (sub : Submission)
    (allowWhenNeedsRevision : Bool) : Except HTTPError Unit :=
  if sub.status = "Pending" then .ok ()
  else if allowWhenNeedsRevision && sub.status == "NeedsRevision" then .ok ()
  else .error ⟨400, "Cannot modify a submission in status " ++ sub.status⟩

/-- Helper `_disk_path_from_public` (submissions.py): map a saved public URL back to
a disk path inside `UPLOAD_DIR`.  `str.replace` removes every occurrence of
`"/uploads/"`. -/
def disk_path_from_public (publicPath : String) : FPath :=
  if publicPath = "" then joinPath UPLOAD_DIR ""
  else if startsWithStr publicPath "/uploads/" then
    joinPath UPLOAD_DIR (replaceStr publicPath "/uploads/" "")
  else
    joinPath UPLOAD_DIR (pathName publicPath)

/-- Events recorded by operations that touch both the database and the
filesystem, in execution order. -/
inductive FsEv where
  | wrote (p : FPath)
  | unlinked (p : FPath)
  | dbCommit (ok : Bool)
  | dbRollback
deriving DecidableEq, Repr

/-- Helper `_remove_disk_file_if_local` (students.py), also reporting the unlink
event it performs: the physical file is removed only when the candidate
`UPLOAD_DIR / basename` exists and resolves inside `UPLOAD_DIR`. -/
def remove_disk_file_if_local_ev (fs : FS) (publicPath : String) :
    FS × List FsEv :=
  let nm := pathName publicPath
  let candidate := joinPath UPLOAD_DIR nm
  if fs.isFile candidate &&
      isRelativeTo (resolvePath candidate) (resolvePath UPLOAD_DIR) then
    (fs.unlink candidate, [.unlinked (resolvePath candidate)])
  else (fs, [])

def remove_disk_file_if_local (fs : FS) (publicPath : String) : FS :=
  (remove_disk_file_if_local_ev fs publicPath).1

/-- Read loop of `_save_stream_to_disk`: the `file.read` chunks arrive in order;
an empty chunk means end of stream.  The running total is compared against
the configured ceiling before each chunk is written. -/
def stream_chunks (maxMb : Nat) :
    Nat → List Nat → List (List Nat) → Except HTTPError (List Nat × Nat)
  | total, written, [] => .ok (written, total)
  | total, written, c :: rest =>
    if c = [] then .ok (written, total)
    else if total + c.length > maxMb * 1024 * 1024 then
      .error ⟨413, "File exceeds " ++ toString maxMb ++ " MB limit"⟩
    else stream_chunks maxMb (total + c.length) (written ++ c) rest

/-- Helper `_save_stream_to_disk`: on success the destination holds the streamed
bytes; on overflow the partially written destination is unlinked before the
413 error is raised. -/
def save_stream_to_disk (fs : FS) (dest : FPath) (maxMb : Nat)
    (chunks : List (List Nat)) : Except HTTPError (Nat × List Nat) × FS :=
  match stream_chunks maxMb 0 [] chunks with
  | .ok (written, total) => (.ok (total, written), fs.write dest written)
  | .error e => (.error e, fs.unlink dest)

/-- Expression `student_notes or None` — an empty string is stored as NULL. -/
def notes_or_none (notes : Option String) : Option String :=
  match notes with
  | some s => if s = "" then none else some s
  | none => none

/-! ### Operations (router handlers) -/

/-- Handler for `POST /student/submissions` — `create_submission` (students.py).
`uuidHex` stands for the `uuid4().hex` drawn inside `_unique_disk_name`,
`now` for `datetime.utcnow()`, `maxMb` for the configured `MAX_UPLOAD_MB`.
models.py declares no unique (student, assignment) constraint and the fresh
primary key cannot collide, so the commit of the new row cannot fail a
constraint check and the `IntegrityError` branch is unreachable. -/
def create_submission (db : DB) (fs : FS) (now : Int) (maxMb : Nat)
    (user : User) (assignmentId : Int) (fileName : String)
    (chunks : List (List Nat)) (studentNotes : Option String)
    (uuidHex : String) : Except HTTPError Submission × DB × FS :=
  if !(require_student_ok user) then
    (.error ⟨403, "Student role required"⟩, db, fs)
  else if assignmentId ≤ 0 then
    (.error ⟨400, "assignment_id must be positive"⟩, db, fs)
  else
    match db.findAssignment assignmentId with
    | none => (.error ⟨404, "Assignment not found"⟩, db, fs)
    | some a =>
      if !(assignment_time_window_ok now a) then
        (.error ⟨400, "Submission window is closed or not yet open"⟩, db, fs)
      else
        let sName := safe_name fileName
        let ext := lowerStr (pathSuffix sName)
        if ext != "" && !(ALLOWED_EXTS.contains ext) then
          (.error ⟨400, "File type " ++ ext ++ " is not allowed"⟩, db, fs)
        else
          let uniqueName := unique_disk_name uuidHex sName
          let dest := joinPath UPLOAD_DIR uniqueName
          match save_stream_to_disk fs dest maxMb chunks with
          | (.error e, fs1) => (.error e, db, fs1)
          | (.ok _saved, fs1) =>
            let row : Submission :=
              { submission_id := db.nextSubmissionId
                assignment_id := assignmentId
                student_id := user.id
                original_filename := sName
                file_path := public_path_for uniqueName
                file_type := infer_file_type sName
                submitted_at := now
                status := "Pending"
                student_notes := notes_or_none studentNotes
                mime_type := none
                file_size := none }
            (.ok row, { db with submissions := db.submissions ++ [row] }, fs1)

/-- Handler for `PATCH /student/submissions/{id}/notes` — `update_submission_notes`
(students.py).  Nothing in the schema can fail this commit. -/
def update_submission_notes (db : DB) (user : User) (submissionId : Int)
    (studentNotes : Option String) : Except HTTPError Submission × DB :=
  if !(require_student_ok user) then
    (.error ⟨403, "Student role required"⟩, db)
  else
    match db.findSubmission submissionId with
    | none => (.error ⟨404, "Submission not found"⟩, db)
    | some sub =>
      match ensure_submission_ownership sub user.id with
      | .error e => (.error e, db)
      | .ok _ =>
        match validate_submission_for_edit sub true with
        | .error e => (.error e, db)
        | .ok _ =>
          let sub1 := { sub with student_notes := notes_or_none studentNotes }
          let subs1 := db.submissions.map
            (fun s => if s.submission_id == submissionId then sub1 else s)
          (.ok sub1, { db with submissions := subs1 })

/-- Handler for `PATCH /student/submissions/{id}/file` — `replace_submission_file`
(students.py).  `commitOk` models whether `db.commit()` on the updated row
succeeds (nothing in the schema forces a failure, but the handler has an
explicit compensation branch for one).  The event list records the
filesystem writes/unlinks and the commit/rollback in execution order. -/
def replace_submission_file (db : DB) (fs : FS) (now : Int) (maxMb : Nat)
    (user : User) (submissionId : Int) (fileName : String)
    (chunks : List (List Nat)) (uuidHex : String) (commitOk : Bool) :
    Except HTTPError Submission × DB × FS × List FsEv :=
  if !(require_student_ok user) then
    (.error ⟨403, "Student role required"⟩, db, fs, [])
  else
    match db.findSubmission submissionId with
    | none => (.error ⟨404, "Submission not found"⟩, db, fs, [])
    | some sub =>
      match ensure_submission_ownership sub user.id with
      | .error e => (.error e, db, fs, [])
      | .ok _ =>
        match validate_submission_for_edit sub true with
        | .error e => (.error e, db, fs, [])
        | .ok _ =>
          let sName := safe_name fileName
          let ext := lowerStr (pathSuffix sName)
          if ext != "" && !(ALLOWED_EXTS.contains ext) then
            (.error ⟨400, "File type " ++ ext ++ " is not allowed"⟩, db, fs, [])
          else
            let uniqueName := unique_disk_name uuidHex sName
            let dest := joinPath UPLOAD_DIR uniqueName
            match save_stream_to_disk fs dest maxMb chunks with
            | (.error e, fs1) =>
              (.error e, db, fs1,
               [.wrote (resolvePath dest), .unlinked (resolvePath dest)])
            | (.ok _saved, fs1) =>
              let newPublic := public_path_for uniqueName
              let oldPublic := sub.file_path
              let sub1 := { sub with
                original_filename := sName
                file_path := newPublic
                file_type := infer_file_type sName
                submitted_at := now }
              if commitOk then
                let subs1 := db.submissions.map
                  (fun s => if s.submission_id == submissionId then sub1 else s)
                let db1 := { db with submissions := subs1 }
                let cleanup :=
                  if oldPublic != newPublic then
                    remove_disk_file_if_local_ev fs1 oldPublic
                  else (fs1, [])
                (.ok sub1, db1, cleanup.1,
                 [.wrote (resolvePath dest), .dbCommit true] ++ cleanup.2)
              else
                let cleanup := remove_disk_file_if_local_ev fs1 newPublic
                (.error ⟨500, "Failed to replace submission file"⟩, db, cleanup.1,
                 [.wrote (resolvePath dest), .dbCommit false] ++ cleanup.2
                   ++ [.dbRollback])

/-- Handler for `DELETE /student/submissions/{id}` — `delete_submission` (students.py).
`db.delete(sub); db.commit()`: models.py configures no delete cascade on
`Submission.feedback`, so the ORM nullifies `SubmissionFeedback.submission_id`
— a NOT NULL column — and the commit raises `IntegrityError` whenever a
feedback row references this submission; the handler rolls back and returns
500.  Otherwise the row is removed and the blob cleanup runs. -/
def student_delete_submission (db : DB) (fs : FS) (user : User)
    (submissionId : Int) (allowWhenNeedsRevision : Bool) :
    Except HTTPError Unit × DB × FS :=
  if !(require_student_ok user) then
    (.error ⟨403, "Student role required"⟩, db, fs)
  else
    match db.findSubmission submissionId with
    | none => (.error ⟨404, "Submission not found"⟩, db, fs)
    | some sub =>
      match ensure_submission_ownership sub user.id with
      | .error e => (.error e, db, fs)
      | .ok _ =>
        match validate_submission_for_edit sub allowWhenNeedsRevision with
        | .error e => (.error e, db, fs)
        | .ok _ =>
          if db.hasFeedbackFor submissionId then
            (.error ⟨500, "Failed to delete submission"⟩, db, fs)
          else
            let subs1 := db.submissions.filter
              (fun s => !(s.submission_id == submissionId))
            (.ok (), { db with submissions := subs1 },
             remove_disk_file_if_local fs sub.file_path)

/-- Handler for `DELETE /submissions/{id}` — `delete_submission` (submissions.py),
admin only.  The same nullify-on-delete `IntegrityError` as in the student
route applies when a feedback row exists.  After a successful commit the
blob is unlinked only when `delete_file` is set, the stored path is
non-empty, the mapped disk path exists and it resolves inside
`UPLOAD_DIR`. -/
def admin_delete_submission (db : DB) (fs : FS) (user : User)
    (submissionId : Int) (deleteFile : Bool) :
    Except HTTPError Unit × DB × FS :=
  if lowerStr user.role != "admin" then
    (.error ⟨403, "Only admins can delete submissions"⟩, db, fs)
  else
    match db.findSubmission submissionId with
    | none => (.error ⟨404, "Submission not found"⟩, db, fs)
    | some sub =>
      let oldPublic := sub.file_path
      if db.hasFeedbackFor submissionId then
        (.error ⟨500, "Failed to delete submission"⟩, db, fs)
      else
        let subs1 := db.submissions.filter
          (fun s => !(s.submission_id == submissionId))
        let db1 := { db with submissions := subs1 }
        let fs1 :=
          if deleteFile && oldPublic != "" then
            let disk := disk_path_from_public oldPublic
            if fs.isFile disk &&
                isRelativeTo (resolvePath disk) (resolvePath UPLOAD_DIR) then
              fs.unlink disk
            else fs
          else fs
        (.ok (), db1, fs1)

/-- Request body of `PATCH /submissions/{id}/status`. -/
structure StatusUpdatePayload where
  status : String
  grade : Option Rat
  feedback_text : Option String
deriving DecidableEq, Repr

/-- Handler for `PATCH /submissions/{id}/status` — `update_submission_status`
(submissions.py): validation, status write, feedback upsert, commit.
Submission has neither a `reviewed_at` nor an `updated_at` column, so those
`hasattr` branches are no-ops, and `_submission_is_assigned_to_doctor`
always answers `True` (see its definition), so the doctor-ownership 403 is
unreachable.  The commit enforces the NOT NULL constraint on
`SubmissionFeedback.doctor_id`; on violation everything is rolled back and
the handler answers 400. -/
def update_submission_status (db : DB) (now : Int) (user : User)
    (submissionId : Int) (body : StatusUpdatePayload) :
    Except HTTPError (Submission × Option SubmissionFeedback) × DB :=
  if !(require_admin_or_doctor user) then
    (.error ⟨403, "Admin or doctor role required"⟩, db)
  else if !(VALID_STATUSES.contains body.status) then
    (.error ⟨400, "Invalid status"⟩, db)
  else if body.status == "Accepted" && body.grade.isNone then
    (.error ⟨400, "Grade is required when accepting a submission"⟩, db)
  else if body.status == "NeedsRevision" &&
      (match body.feedback_text with
       | none => true
       | some t => trimStr t == "") then
    (.error ⟨400, "Feedback text is required when marking NeedsRevision"⟩, db)
  else
    match db.findSubmission submissionId with
    | none => (.error ⟨404, "Submission not found"⟩, db)
    | some sub =>
      let sub1 := { sub with status := body.status }
      let hasAnyFeedback := body.feedback_text.isSome || body.grade.isSome
      let feedbacks1 :=
        if hasAnyFeedback then
          match db.findFeedback submissionId with
          | some fb =>
            let fb1 := { fb with
              feedback_text := match body.feedback_text with
                | some t => some t
                | none => fb.feedback_text
              grade := match body.grade with
                | some g => some g
                | none => fb.grade }
            let fb2 :=
              if (fb1.doctor_id == (none : Option Int)
                    || fb1.doctor_id == some 0) && is_doctor user then
                { fb1 with doctor_id := some user.id }
              else fb1
            db.feedbacks.map
              (fun f => if f.feedback_id == fb.feedback_id then fb2 else f)
          | none =>
            db.feedbacks ++
              [{ feedback_id := db.nextFeedbackId
                 submission_id := submissionId
                 doctor_id := if is_doctor user then some user.id else none
                 feedback_text := body.feedback_text
                 grade := body.grade
                 created_at := now }]
        else db.feedbacks
      let subs1 := db.submissions.map
        (fun s => if s.submission_id == submissionId then sub1 else s)
      let db1 : DB := { db with submissions := subs1, feedbacks := feedbacks1 }
      if db1.feedbackDoctorNotNull then
        (.ok (sub1, db1.findFeedback submissionId), db1)
      else
        (.error ⟨400, "Constraint error while updating submission"⟩, db)

/-! ### Concrete fixtures used by witnesses and counterexamples -/

def assignment1 : Assignment := { assignment_id := 1, deadline := 1000 }

def studentU : User := { id := 10, role := "student" }
def doctorU : User := { id := 20, role := "doctor" }
def adminU : User := { id := 30, role := "admin" }

def subPending : Submission :=
  { submission_id := 1, assignment_id := 1, student_id := 10,
    original_filename := "report.pdf", file_path := "/uploads/aa_report.pdf",
    file_type := "PDF", submitted_at := 5, status := "Pending",
    student_notes := none, mime_type := none, file_size := none }

def subAccepted : Submission :=
  { subPending with
    submission_id := 2
    original_filename := "notes.pdf"
    file_path := "/uploads/bb_notes.pdf"
    status := "Accepted" }

def fbGraded : SubmissionFeedback :=
  { feedback_id := 1, submission_id := 2, doctor_id := some 20,
    feedback_text := some "good work", grade := some (17 / 2 : Rat),
    created_at := 6 }

def db0 : DB :=
  { assignments := [assignment1],
    submissions := [subPending, subAccepted],
    feedbacks := [fbGraded] }

def fs0 : FS := fun p =>
  if p = resolvePath (joinPath UPLOAD_DIR "aa_report.pdf") then
    some [37, 80, 68, 70]
  else if p = resolvePath (joinPath UPLOAD_DIR "bb_notes.pdf") then
    some [37, 80, 68, 70]
  else none

/-- The row a concrete upload on the fixture store creates. -/
def subCreatedC1 : Submission :=
  { submission_id := 3, assignment_id := 1, student_id := 10,
    original_filename := "essay.pdf", file_path := "/uploads/cc_essay.pdf",
    file_type := "PDF", submitted_at := 50, status := "Pending",
    student_notes := none, mime_type := none, file_size := none }

/-- The row a concrete file replacement on the fixture store produces. -/
def subReplacedC1 : Submission :=
  { subPending with
    original_filename := "new.pdf"
    file_path := "/uploads/dd_new.pdf"
    file_type := "PDF"
    submitted_at := 60 }

/-- A submission whose stored blob path was tampered to escape the storage
root through `..` components. -/
def subTampered : Submission :=
  { subPending with
    submission_id := 9
    file_path := "/uploads/../../../etc/passwd" }

def dbT : DB :=
  { assignments := [assignment1], submissions := [subTampered],
    feedbacks := [] }

/-- A filesystem holding only a foreign file outside the storage root. -/
def fsT : FS := fun p =>
  if p = ⟨true, ["etc", "passwd"]⟩ then some [42] else none

/-- Temporal property over an event trace: every unlink of `p` happens
strictly after a successful database commit. -/
def unlink_only_after_commit (tr : List FsEv) (p : FPath) : Prop :=
  ∀ i, tr.get? i = some (.unlinked p) →
    ∃ j, j < i ∧ tr.get? j = some (.dbCommit true)

/-! ### C2 -/

/-- C2 (counterexample): the claim says a review call with
`target_status = "Pending"` always fails with a validation error and leaves
the submission unchanged.  On the code, `VALID_STATUSES` contains
`"Pending"`, so such a call passes validation, succeeds, and rewrites the
submission status back to `Pending`. -/
theorem C2_counterexample :
    (update_submission_status db0 50 doctorU 2
        ⟨"Pending", none, none⟩).1 =
      .ok ({ subAccepted with status := "Pending" }, some fbGraded) ∧
    (update_submission_status db0 50 doctorU 2
        ⟨"Pending", none, none⟩).2.submissions =
      [subPending, { subAccepted with status := "Pending" }] := by
  exact ⟨rfl, rfl⟩

/-- C2 (amended): `target_status` must be one of the four statuses
`Pending`, `Accepted`, `Rejected`, `NeedsRevision`; a value outside this set
fails with a 400 validation error and leaves the store unchanged, while
`"Pending"` itself passes the status validation. -/
theorem C2_amended_valid_statuses (db : DB) (now : Int) (user : User)
    (sid : Int) (body : StatusUpdatePayload)
    (hrole : require_admin_or_doctor user = true)
    (hbad : VALID_STATUSES.contains body.status = false) :
    (update_submission_status db now user sid body).1 =
      .error ⟨400, "Invalid status"⟩ ∧
    (update_submission_status db now user sid body).2 = db := by
  have hbad' : ¬ body.status ∈ VALID_STATUSES := by simpa using hbad
  unfold update_submission_status
  simp [hrole, hbad']

/-- Witness for C2 (amended) at a concrete unknown status value. -/
theorem C2_amended_valid_statuses_witness :
    (update_submission_status db0 50 adminU 1
        ⟨"Archived", none, none⟩).1 = .error ⟨400, "Invalid status"⟩ ∧
    (update_submission_status db0 50 adminU 1
        ⟨"Archived", none, none⟩).2 = db0 :=
  C2_amended_valid_statuses db0 50 adminU 1 ⟨"Archived", none, none⟩ rfl rfl

/-! ### C3 -/

/-- C3: in a review call, `Accepted` with a null grade fails with the 400
grade-required error, `NeedsRevision` with a null or whitespace-only
feedback text fails with the 400 feedback-required error — in both cases
the store is completely unchanged — and `Rejected` with neither a grade nor
feedback text succeeds (no additional requirement). -/
theorem C3_review_validation (db : DB) (now : Int) (user : User) (sid : Int)
    (hrole : require_admin_or_doctor user = true) :
    (∀ t, (update_submission_status db now user sid ⟨"Accepted", none, t⟩).1 =
        .error ⟨400, "Grade is required when accepting a submission"⟩ ∧
      (update_submission_status db now user sid ⟨"Accepted", none, t⟩).2 = db) ∧
    (∀ g t, (t = none ∨ ∃ s, t = some s ∧ trimStr s = "") →
      (update_submission_status db now user sid ⟨"NeedsRevision", g, t⟩).1 =
        .error ⟨400, "Feedback text is required when marking NeedsRevision"⟩ ∧
      (update_submission_status db now user sid ⟨"NeedsRevision", g, t⟩).2 = db) ∧
    (∀ sub, db.findSubmission sid = some sub →
      db.feedbackDoctorNotNull = true →
      ∃ r, (update_submission_status db now user sid
        ⟨"Rejected", none, none⟩).1 = .ok r) := by
  refine ⟨fun t => ?_, fun g t ht => ?_, fun sub hsub hwf => ?_⟩
  · unfold update_submission_status
    simp [hrole, VALID_STATUSES]
  · rcases ht with rfl | ⟨s, rfl, hs⟩
    · unfold update_submission_status
      simp [hrole, VALID_STATUSES]
    · unfold update_submission_status
      simp [hrole, hs, VALID_STATUSES]
  · unfold update_submission_status
    unfold DB.feedbackDoctorNotNull at hwf ⊢
    simp [hrole, hsub, hwf, VALID_STATUSES]

/-- Witness for C3: concrete failing Accepted/NeedsRevision calls and a
succeeding bare Rejected call. -/
theorem C3_review_validation_witness :
    ((update_submission_status db0 50 doctorU 1 ⟨"Accepted", none, none⟩).1 =
        .error ⟨400, "Grade is required when accepting a submission"⟩ ∧
      (update_submission_status db0 50 doctorU 1 ⟨"Accepted", none, none⟩).2 = db0) ∧
    ((update_submission_status db0 50 doctorU 1
          ⟨"NeedsRevision", none, some " "⟩).1 =
        .error ⟨400, "Feedback text is required when marking NeedsRevision"⟩ ∧
      (update_submission_status db0 50 doctorU 1
          ⟨"NeedsRevision", none, some " "⟩).2 = db0) ∧
    (∃ r, (update_submission_status db0 50 doctorU 1
        ⟨"Rejected", none, none⟩).1 = .ok r) :=
  ⟨(C3_review_validation db0 50 doctorU 1 rfl).1 none,
   (C3_review_validation db0 50 doctorU 1 rfl).2.1 none (some " ")
     (Or.inr ⟨" ", rfl, rfl⟩),
   (C3_review_validation db0 50 doctorU 1 rfl).2.2 subPending rfl rfl⟩

/-! ### C1 -/

/-- C1: every submission created by the upload operation has status
`Pending` (both the returned row and every row the upload adds to the
store); the review operation refuses any caller whose role is neither
doctor nor admin without touching the store; and the student-facing
`update_notes` and `replace_file` operations never change the status of any
submission — every row in their result store shares id and status with a
row of the original store. -/
theorem C1_pending_and_review_gate (db : DB) (fs : FS) (now : Int)
    (maxMb : Nat) (user : User) :
    (∀ aid fn chunks notes hex s,
      (create_submission db fs now maxMb user aid fn chunks notes hex).1 =
        .ok s → s.status = "Pending") ∧
    (∀ aid fn chunks notes hex s,
      s ∈ (create_submission db fs now maxMb user aid fn chunks notes
          hex).2.1.submissions →
      s ∈ db.submissions ∨ s.status = "Pending") ∧
    (∀ sid body, require_admin_or_doctor user = false →
      (update_submission_status db now user sid body).1 =
        .error ⟨403, "Admin or doctor role required"⟩ ∧
      (update_submission_status db now user sid body).2 = db) ∧
    (∀ sid notes s,
      s ∈ (update_submission_notes db user sid notes).2.submissions →
      ∃ s0 ∈ db.submissions,
        s0.submission_id = s.submission_id ∧ s0.status = s.status) ∧
    (∀ sid fn chunks hex cOk s,
      s ∈ (replace_submission_file db fs now maxMb user sid fn chunks hex
          cOk).2.1.submissions →
      ∃ s0 ∈ db.submissions,
        s0.submission_id = s.submission_id ∧ s0.status = s.status) := by
  refine ⟨?_, ?_, ?_, ?_, ?_⟩
  · intro aid fn chunks notes hex s h
    unfold create_submission at h
    simp only [] at h
    split at h
    · simp at h
    split at h
    · simp at h
    split at h
    · simp at h
    split at h
    · simp at h
    split at h
    · simp at h
    split at h
    · simp at h
    · rw [Except.ok.injEq] at h
      subst h
      rfl
  · intro aid fn chunks notes hex s h
    unfold create_submission at h
    simp only [] at h
    repeat' split at h
    all_goals try exact Or.inl h
    simp only [List.mem_append, List.mem_singleton] at h
    rcases h with h | rfl
    · exact Or.inl h
    · exact Or.inr rfl
  · intro sid body hrole
    unfold update_submission_status
    simp [hrole]
  · intro sid notes s h
    unfold update_submission_notes at h
    simp only [] at h
    split at h
    · exact ⟨s, h, rfl, rfl⟩
    split at h
    · exact ⟨s, h, rfl, rfl⟩
    rename_i sub heq
    split at h
    · exact ⟨s, h, rfl, rfl⟩
    split at h
    · exact ⟨s, h, rfl, rfl⟩
    simp only [] at h
    rcases List.mem_map.mp h with ⟨s0, hs0, rfl⟩
    by_cases hc : s0.submission_id = sid
    · exact ⟨sub,
        List.mem_of_find?_eq_some (by simpa [DB.findSubmission] using heq),
        by simp [hc], by simp [hc]⟩
    · exact ⟨s0, hs0, by simp [hc], by simp [hc]⟩
  · intro sid fn chunks hex cOk s h
    unfold replace_submission_file at h
    simp only [] at h
    split at h
    · exact ⟨s, h, rfl, rfl⟩
    split at h
    · exact ⟨s, h, rfl, rfl⟩
    rename_i sub heq
    split at h
    · exact ⟨s, h, rfl, rfl⟩
    split at h
    · exact ⟨s, h, rfl, rfl⟩
    split at h
    · exact ⟨s, h, rfl, rfl⟩
    split at h
    · exact ⟨s, h, rfl, rfl⟩
    split at h
    · simp only [] at h
      rcases List.mem_map.mp h with ⟨s0, hs0, rfl⟩
      by_cases hc : s0.submission_id = sid
      · exact ⟨sub,
          List.mem_of_find?_eq_some (by simpa [DB.findSubmission] using heq),
          by simp [hc], by simp [hc]⟩
      · exact ⟨s0, hs0, by simp [hc], by simp [hc]⟩
    · exact ⟨s, h, rfl, rfl⟩

/-- Witness for C1: a concrete upload, a role-refused review, a notes
update and a file replacement on the fixture store. -/
theorem C1_pending_and_review_gate_witness :
    subCreatedC1.status = "Pending" ∧
    (subCreatedC1 ∈ db0.submissions ∨ subCreatedC1.status = "Pending") ∧
    ((update_submission_status db0 50 studentU 1
        ⟨"Accepted", some 5, none⟩).1 =
      .error ⟨403, "Admin or doctor role required"⟩ ∧
      (update_submission_status db0 50 studentU 1
        ⟨"Accepted", some 5, none⟩).2 = db0) ∧
    (∃ s0 ∈ db0.submissions,
      s0.submission_id = subPending.submission_id ∧
      s0.status = subPending.status) ∧
    (∃ s0 ∈ db0.submissions,
      s0.submission_id = subReplacedC1.submission_id ∧
      s0.status = subReplacedC1.status) :=
  ⟨(C1_pending_and_review_gate db0 fs0 50 50 studentU).1 1 "essay.pdf"
      [[1, 2]] none "cc" subCreatedC1 rfl,
   (C1_pending_and_review_gate db0 fs0 50 50 studentU).2.1 1 "essay.pdf"
      [[1, 2]] none "cc" subCreatedC1 (by
        have e : (create_submission db0 fs0 50 50 studentU 1 "essay.pdf"
            [[1, 2]] none "cc").2.1.submissions =
            [subPending, subAccepted, subCreatedC1] := rfl
        rw [e]
        simp),
   (C1_pending_and_review_gate db0 fs0 50 50 studentU).2.2.1 1
      ⟨"Accepted", some 5, none⟩ rfl,
   (C1_pending_and_review_gate db0 fs0 50 50 studentU).2.2.2.1 1 none
      subPending (by
        have e : (update_submission_notes db0 studentU 1 none).2.submissions =
            [subPending, subAccepted] := rfl
        rw [e]
        simp),
   (C1_pending_and_review_gate db0 fs0 60 50 studentU).2.2.2.2 1 "new.pdf"
      [[9]] "dd" true subReplacedC1 (by
        have e : (replace_submission_file db0 fs0 60 50 studentU 1 "new.pdf"
            [[9]] "dd" true).2.1.submissions = [subReplacedC1, subAccepted] := rfl
        rw [e]
        simp)⟩

/-! ### C7 -/

/-- C7: on a submission that already has a feedback row with a stored grade,
a second review call with `Rejected` and neither grade nor feedback text
succeeds, returns the submission with status overwritten to `Rejected`
together with the old feedback row, and leaves the feedback table (hence
the stored grade) unchanged. -/
theorem C7_rereview_rejected_keeps_grade (db : DB) (now : Int) (user : User)
    (sid : Int) (sub : Submission) (fb : SubmissionFeedback) (g : Rat)
    (hrole : require_admin_or_doctor user = true)
    (hsub : db.findSubmission sid = some sub)
    (hfb : db.findFeedback sid = some fb)
    (_hg : fb.grade = some g)
    (hwf : db.feedbackDoctorNotNull = true) :
    (update_submission_status db now user sid ⟨"Rejected", none, none⟩).1 =
      .ok ({ sub with status := "Rejected" }, some fb) ∧
    (update_submission_status db now user sid
        ⟨"Rejected", none, none⟩).2.feedbacks = db.feedbacks := by
  unfold update_submission_status
  unfold DB.feedbackDoctorNotNull at hwf ⊢
  unfold DB.findFeedback at hfb ⊢
  simp [hrole, hsub, hwf, hfb, VALID_STATUSES]

/-- Witness for C7: doctor re-reviews the already-graded submission 2. -/
theorem C7_rereview_rejected_keeps_grade_witness :
    (update_submission_status db0 50 doctorU 2 ⟨"Rejected", none, none⟩).1 =
      .ok ({ subAccepted with status := "Rejected" }, some fbGraded) ∧
    (update_submission_status db0 50 doctorU 2
        ⟨"Rejected", none, none⟩).2.feedbacks = db0.feedbacks :=
  C7_rereview_rejected_keeps_grade db0 50 doctorU 2 subAccepted fbGraded
    (17 / 2 : Rat) rfl rfl rfl rfl rfl

/-! ### C10 -/

/-- C10: when the reviewer is an admin (not a doctor) and the submission has
no feedback row yet, any valid review call that supplies a grade or feedback
text builds a `SubmissionFeedback` row without a `doctor_id`; the NOT NULL
constraint makes the commit fail, the transaction is rolled back, and the
whole store — in particular the submission status — is unchanged. -/
theorem C10_admin_first_feedback_fails (db : DB) (now : Int) (user : User)
    (sid : Int) (body : StatusUpdatePayload) (sub : Submission)
    (hadmin : lowerStr user.role = "admin")
    (hvalid : VALID_STATUSES.contains body.status = true)
    (hacc : (body.status == "Accepted" && body.grade.isNone) = false)
    (hnr : (body.status == "NeedsRevision" &&
      (match body.feedback_text with
       | none => true
       | some t => trimStr t == "")) = false)
    (hsub : db.findSubmission sid = some sub)
    (hfb : db.findFeedback sid = none)
    (hany : (body.feedback_text.isSome || body.grade.isSome) = true) :
    (update_submission_status db now user sid body).1 =
      .error ⟨400, "Constraint error while updating submission"⟩ ∧
    (update_submission_status db now user sid body).2 = db := by
  have hrole : require_admin_or_doctor user = true := by
    unfold require_admin_or_doctor
    simp [hadmin]
  have hdoc : is_doctor user = false := by
    unfold is_doctor
    simp [hadmin]
  unfold update_submission_status
  rw [hvalid]
  simp [hrole, hacc, hnr, hsub, hfb, hany, hdoc, DB.feedbackDoctorNotNull]

/-- Witness for C10: admin tries to put the first grade on submission 1. -/
theorem C10_admin_first_feedback_fails_witness :
    (update_submission_status db0 50 adminU 1
        ⟨"Rejected", some (5 : Rat), none⟩).1 =
      .error ⟨400, "Constraint error while updating submission"⟩ ∧
    (update_submission_status db0 50 adminU 1
        ⟨"Rejected", some (5 : Rat), none⟩).2 = db0 :=
  C10_admin_first_feedback_fails db0 50 adminU 1
    ⟨"Rejected", some (5 : Rat), none⟩ subPending rfl rfl rfl rfl rfl rfl rfl

/-! ### C4 -/

/-- C4: on a submission whose status is `Accepted` or `Rejected`, the
`update_notes`, `replace_file` and `delete` calls of the owning student all
fail with
the invalid-state 400 error and leave the database and the filesystem (and
the event trace) completely untouched; on a `Pending` submission (or
`NeedsRevision` where the operation allows it) the same calls are
permitted. -/
theorem C4_terminal_locks_student_edits (db : DB) (fs : FS) (now : Int)
    (maxMb : Nat) (user : User) (sid : Int) (sub : Submission)
    (hrole : require_student_ok user = true)
    (hsub : db.findSubmission sid = some sub)
    (hown : sub.student_id = user.id) :
    (sub.status = "Accepted" ∨ sub.status = "Rejected" →
      (∀ notes,
        update_submission_notes db user sid notes =
          (.error ⟨400, "Cannot modify a submission in status " ++ sub.status⟩,
           db)) ∧
      (∀ fn chunks hex cOk,
        replace_submission_file db fs now maxMb user sid fn chunks hex cOk =
          (.error ⟨400, "Cannot modify a submission in status " ++ sub.status⟩,
           db, fs, [])) ∧
      (∀ allowNR,
        student_delete_submission db fs user sid allowNR =
          (.error ⟨400, "Cannot modify a submission in status " ++ sub.status⟩,
           db, fs))) ∧
    (∀ notes, sub.status = "Pending" ∨ sub.status = "NeedsRevision" →
      ∃ r, (update_submission_notes db user sid notes).1 = .ok r) ∧
    (∀ allowNR,
      sub.status = "Pending" ∨ (allowNR = true ∧ sub.status = "NeedsRevision") →
      db.hasFeedbackFor sid = false →
      (student_delete_submission db fs user sid allowNR).1 = .ok ()) ∧
    (∀ fn chunks hex,
      sub.status = "Pending" ∨ sub.status = "NeedsRevision" →
      (lowerStr (pathSuffix (safe_name fn)) = "" ∨
        ALLOWED_EXTS.contains (lowerStr (pathSuffix (safe_name fn))) = true) →
      (∃ w t, stream_chunks maxMb 0 [] chunks = .ok (w, t)) →
      ∃ r, (replace_submission_file db fs now maxMb user sid fn chunks hex
        true).1 = .ok r) := by
  refine ⟨fun hstat => ⟨fun notes => ?_, fun fn chunks hex cOk => ?_,
      fun allowNR => ?_⟩, fun notes hstat => ?_, fun allowNR hstat hfb => ?_,
      fun fn chunks hex hstat hext hstream => ?_⟩
  · rcases hstat with h | h <;>
      simp [update_submission_notes, hrole, hsub, ensure_submission_ownership,
        hown, validate_submission_for_edit, h]
  · rcases hstat with h | h <;>
      simp [replace_submission_file, hrole, hsub, ensure_submission_ownership,
        hown, validate_submission_for_edit, h]
  · rcases hstat with h | h <;>
      simp [student_delete_submission, hrole, hsub, ensure_submission_ownership,
        hown, validate_submission_for_edit, h]
  · rcases hstat with h | h <;>
      simp [update_submission_notes, hrole, hsub, ensure_submission_ownership,
        hown, validate_submission_for_edit, h]
  · rcases hstat with h | ⟨ha, h⟩
    · simp [student_delete_submission, hrole, hsub, ensure_submission_ownership,
        hown, validate_submission_for_edit, h, hfb]
    · simp [student_delete_submission, hrole, hsub, ensure_submission_ownership,
        hown, validate_submission_for_edit, h, ha, hfb]
  · rcases hstream with ⟨w, t, hstream⟩
    have hcp : ¬(¬ lowerStr (pathSuffix (safe_name fn)) = "" ∧
        lowerStr (pathSuffix (safe_name fn)) ∉ ALLOWED_EXTS) := by
      rcases hext with he | he
      · simp [he]
      · have hm : lowerStr (pathSuffix (safe_name fn)) ∈ ALLOWED_EXTS := by
          simpa using he
        simp [hm]
    rcases hstat with h | h <;>
      simp [replace_submission_file, hrole, hsub, ensure_submission_ownership,
        hown, validate_submission_for_edit, h, hcp, save_stream_to_disk,
        hstream]

/-- Witness for C4: the three edits refused on the accepted submission 2,
and permitted on the pending submission 1. -/
theorem C4_terminal_locks_student_edits_witness :
    (update_submission_notes db0 studentU 2 (some "x") =
      (.error ⟨400, "Cannot modify a submission in status " ++
        subAccepted.status⟩, db0)) ∧
    (replace_submission_file db0 fs0 60 50 studentU 2 "new.pdf" [[9]] "dd"
        true =
      (.error ⟨400, "Cannot modify a submission in status " ++
        subAccepted.status⟩, db0, fs0, [])) ∧
    (student_delete_submission db0 fs0 studentU 2 true =
      (.error ⟨400, "Cannot modify a submission in status " ++
        subAccepted.status⟩, db0, fs0)) ∧
    (∃ r, (update_submission_notes db0 studentU 1 (some "hello")).1 =
      .ok r) ∧
    ((student_delete_submission db0 fs0 studentU 1 false).1 = .ok ()) ∧
    (∃ r, (replace_submission_file db0 fs0 60 50 studentU 1 "new.pdf" [[9]]
      "dd" true).1 = .ok r) :=
  ⟨((C4_terminal_locks_student_edits db0 fs0 60 50 studentU 2 subAccepted rfl
      rfl rfl).1 (Or.inl rfl)).1 (some "x"),
   ((C4_terminal_locks_student_edits db0 fs0 60 50 studentU 2 subAccepted rfl
      rfl rfl).1 (Or.inl rfl)).2.1 "new.pdf" [[9]] "dd" true,
   ((C4_terminal_locks_student_edits db0 fs0 60 50 studentU 2 subAccepted rfl
      rfl rfl).1 (Or.inl rfl)).2.2 true,
   (C4_terminal_locks_student_edits db0 fs0 60 50 studentU 1 subPending rfl
      rfl rfl).2.1 (some "hello") (Or.inl rfl),
   (C4_terminal_locks_student_edits db0 fs0 60 50 studentU 1 subPending rfl
      rfl rfl).2.2.1 false (Or.inl rfl) rfl,
   (C4_terminal_locks_student_edits db0 fs0 60 50 studentU 1 subPending rfl
      rfl rfl).2.2.2 "new.pdf" [[9]] "dd" (Or.inl rfl) (Or.inr rfl)
      ⟨[9], 1, rfl⟩⟩

/-! ### C5 -/

/-- Behaviour of the read loop of `_save_stream_to_disk`: with non-empty chunks
and a running total within the ceiling, the loop fails with 413 exactly when
the total streamed size exceeds the ceiling, and otherwise writes all the
bytes. -/
theorem stream_chunks_spec (maxMb : Nat) (chunks : List (List Nat)) :
    ∀ (total : Nat) (written : List Nat),
      (∀ c ∈ chunks, c ≠ []) → total ≤ maxMb * 1024 * 1024 →
      (total + (chunks.map List.length).sum > maxMb * 1024 * 1024 →
        stream_chunks maxMb total written chunks =
          .error ⟨413, "File exceeds " ++ toString maxMb ++ " MB limit"⟩) ∧
      (total + (chunks.map List.length).sum ≤ maxMb * 1024 * 1024 →
        stream_chunks maxMb total written chunks =
          .ok (written ++ chunks.flatten,
               total + (chunks.map List.length).sum)) := by
  induction chunks with
  | nil =>
    intro total written _ htot
    refine ⟨fun h => ?_, fun _ => ?_⟩
    · simp at h
      omega
    · simp [stream_chunks]
  | cons c rest ih =>
    intro total written hne htot
    have hc : c ≠ [] := hne c (List.mem_cons_self c rest)
    have hcl : 1 ≤ c.length := List.length_pos.mpr hc
    have hne2 : ∀ x ∈ rest, x ≠ [] := fun x hx =>
      hne x (List.mem_cons_of_mem _ hx)
    by_cases hover : total + c.length > maxMb * 1024 * 1024
    · refine ⟨fun _ => ?_, fun h => ?_⟩
      · simp [stream_chunks, hc, hover]
      · exfalso
        simp [List.map_cons, List.sum_cons] at h
        omega
    · have htot2 : total + c.length ≤ maxMb * 1024 * 1024 := by omega
      have ihs := ih (total + c.length) (written ++ c) hne2 htot2
      refine ⟨fun h => ?_, fun h => ?_⟩
      · have h2 : total + c.length + (rest.map List.length).sum >
            maxMb * 1024 * 1024 := by
          simp [List.map_cons, List.sum_cons] at h
          omega
        simp [stream_chunks, hc, hover]
        exact ihs.1 h2
      · have h2 : total + c.length + (rest.map List.length).sum ≤
            maxMb * 1024 * 1024 := by
          simp [List.map_cons, List.sum_cons] at h
          omega
        have hrec := ihs.2 h2
        simp [stream_chunks, hc, hover, hrec]
        omega

/-- C5: an upload whose total streamed bytes exceed the configured ceiling
fails with the 413 too-large error, creates no Submission row, and deletes
the partially written destination file (touching nothing else on disk); an
upload at or under the ceiling succeeds and writes the full content to the
destination. -/
theorem C5_upload_ceiling (db : DB) (fs : FS) (now : Int) (maxMb : Nat)
    (user : User) (aid : Int) (fn : String) (chunks : List (List Nat))
    (notes : Option String) (hex : String) (a : Assignment)
    (hrole : require_student_ok user = true)
    (haid : 0 < aid)
    (ha : db.findAssignment aid = some a)
    (hwin : assignment_time_window_ok now a = true)
    (hext : lowerStr (pathSuffix (safe_name fn)) = "" ∨
      ALLOWED_EXTS.contains (lowerStr (pathSuffix (safe_name fn))) = true)
    (hne : ∀ c ∈ chunks, c ≠ []) :
    ((chunks.map List.length).sum > maxMb * 1024 * 1024 →
      (create_submission db fs now maxMb user aid fn chunks notes hex).1 =
        .error ⟨413, "File exceeds " ++ toString maxMb ++ " MB limit"⟩ ∧
      (create_submission db fs now maxMb user aid fn chunks notes hex).2.1 =
        db ∧
      (create_submission db fs now maxMb user aid fn chunks notes hex).2.2
        (resolvePath (joinPath UPLOAD_DIR
          (unique_disk_name hex (safe_name fn)))) = none ∧
      ∀ q, q ≠ resolvePath (joinPath UPLOAD_DIR
          (unique_disk_name hex (safe_name fn))) →
        (create_submission db fs now maxMb user aid fn chunks notes
          hex).2.2 q = fs q) ∧
    ((chunks.map List.length).sum ≤ maxMb * 1024 * 1024 →
      (∃ r, (create_submission db fs now maxMb user aid fn chunks notes
        hex).1 = .ok r) ∧
      (create_submission db fs now maxMb user aid fn chunks notes hex).2.2
        (resolvePath (joinPath UPLOAD_DIR
          (unique_disk_name hex (safe_name fn)))) = some chunks.flatten) := by
  have hnle : ¬ aid ≤ 0 := by omega
  have hcp : ¬(¬ lowerStr (pathSuffix (safe_name fn)) = "" ∧
      lowerStr (pathSuffix (safe_name fn)) ∉ ALLOWED_EXTS) := by
    rcases hext with he | he
    · simp [he]
    · have hm : lowerStr (pathSuffix (safe_name fn)) ∈ ALLOWED_EXTS := by
        simpa using he
      simp [hm]
  constructor
  · intro hover
    have hstream := (stream_chunks_spec maxMb chunks 0 [] hne
      (Nat.zero_le _)).1 (by simpa using hover)
    refine ⟨?_, ?_, ?_, ?_⟩
    · simp [create_submission, hrole, hnle, ha, hwin, hcp,
        save_stream_to_disk, hstream]
    · simp [create_submission, hrole, hnle, ha, hwin, hcp,
        save_stream_to_disk, hstream]
    · simp [create_submission, hrole, hnle, ha, hwin, hcp,
        save_stream_to_disk, hstream, FS.unlink]
    · intro q hq
      simp [create_submission, hrole, hnle, ha, hwin, hcp,
        save_stream_to_disk, hstream, FS.unlink, hq]
  · intro hunder
    have hstream := (stream_chunks_spec maxMb chunks 0 [] hne
      (Nat.zero_le _)).2 (by simpa using hunder)
    constructor
    · simp [create_submission, hrole, hnle, ha, hwin, hcp,
        save_stream_to_disk, hstream]
    · simp [create_submission, hrole, hnle, ha, hwin, hcp,
        save_stream_to_disk, hstream, FS.write]

/-- Witness for C5: with a zero ceiling a one-byte upload is rejected and
rolled off disk; with the default 50 MB ceiling a two-byte upload lands in
full. -/
theorem C5_upload_ceiling_witness :
    ((create_submission db0 fs0 50 0 studentU 1 "big.pdf" [[1]] none
        "ee").1 =
      .error ⟨413, "File exceeds " ++ toString 0 ++ " MB limit"⟩) ∧
    ((create_submission db0 fs0 50 0 studentU 1 "big.pdf" [[1]] none
        "ee").2.1 = db0) ∧
    ((create_submission db0 fs0 50 50 studentU 1 "small.pdf" [[1, 2]] none
        "ff").2.2 (resolvePath (joinPath UPLOAD_DIR
          (unique_disk_name "ff" (safe_name "small.pdf")))) =
      some [1, 2]) :=
  ⟨((C5_upload_ceiling db0 fs0 50 0 studentU 1 "big.pdf" [[1]] none "ee"
      assignment1 rfl (by omega) rfl rfl (Or.inr rfl) (by simp)).1
      (by simp)).1,
   ((C5_upload_ceiling db0 fs0 50 0 studentU 1 "big.pdf" [[1]] none "ee"
      assignment1 rfl (by omega) rfl rfl (Or.inr rfl) (by simp)).1
      (by simp)).2.1,
   ((C5_upload_ceiling db0 fs0 50 50 studentU 1 "small.pdf" [[1, 2]] none
      "ff" assignment1 rfl (by omega) rfl rfl (Or.inr rfl) (by simp)).2
      (by norm_num)).2⟩

/-! ### C6 -/

/-- Lemma: `_remove_disk_file_if_local` never touches any path that does not
resolve inside the storage root. -/
theorem remove_disk_file_if_local_frame (fs : FS) (p : String) (q : FPath)
    (hq : isRelativeTo q (resolvePath UPLOAD_DIR) = false) :
    remove_disk_file_if_local fs p q = fs q := by
  unfold remove_disk_file_if_local remove_disk_file_if_local_ev
  simp only []
  split
  · rename_i hg
    simp only [Bool.and_eq_true] at hg
    have hne : q ≠ resolvePath (joinPath UPLOAD_DIR (pathName p)) := by
      intro he
      rw [he, hg.2] at hq
      cases hq
    show FS.unlink fs (joinPath UPLOAD_DIR (pathName p)) q = fs q
    simp [FS.unlink, hne]
  · rfl

/-- C6: deleting a submission removes the stored blob iff the mapped disk
path resolves inside the storage root.  Concretely: an admin delete (with
file cleanup enabled) succeeds and removes the database row; neither the
admin nor the student delete route ever modifies a path that does not
resolve inside `UPLOAD_DIR` — so a tampered `file_path` pointing outside the
root leaves the foreign file untouched — and when the stored path does map
to an existing blob inside the root, that blob is unlinked. -/
theorem C6_delete_blob_containment (db : DB) (fs : FS) (user : User)
    (sid : Int) (sub : Submission)
    (hadmin : lowerStr user.role = "admin")
    (hsub : db.findSubmission sid = some sub)
    (hnofb : db.hasFeedbackFor sid = false) :
    ((admin_delete_submission db fs user sid true).1 = .ok () ∧
     (admin_delete_submission db fs user sid true).2.1.submissions =
       db.submissions.filter (fun s => !(s.submission_id == sid))) ∧
    (∀ q, isRelativeTo q (resolvePath UPLOAD_DIR) = false →
      (admin_delete_submission db fs user sid true).2.2 q = fs q) ∧
    (∀ (user2 : User) (sid2 : Int) (allowNR : Bool) (q : FPath),
      isRelativeTo q (resolvePath UPLOAD_DIR) = false →
      (student_delete_submission db fs user2 sid2 allowNR).2.2 q = fs q) ∧
    (sub.file_path ≠ "" →
      fs.isFile (disk_path_from_public sub.file_path) = true →
      isRelativeTo (resolvePath (disk_path_from_public sub.file_path))
        (resolvePath UPLOAD_DIR) = true →
      (admin_delete_submission db fs user sid true).2.2
        (resolvePath (disk_path_from_public sub.file_path)) = none) := by
  refine ⟨⟨?_, ?_⟩, ?_, ?_, ?_⟩
  · simp [admin_delete_submission, hadmin, hsub, hnofb]
  · simp [admin_delete_submission, hadmin, hsub, hnofb]
  · intro q hq
    unfold admin_delete_submission
    simp only [hadmin, hsub, hnofb]
    try simp only []
    split
    · rfl
    split
    · rfl
    split
    · split
      · rename_i hg
        simp only [Bool.and_eq_true] at hg
        have hne : q ≠ resolvePath (disk_path_from_public sub.file_path) := by
          intro he
          rw [he, hg.2] at hq
          cases hq
        show FS.unlink fs (disk_path_from_public sub.file_path) q = fs q
        simp [FS.unlink, hne]
      · rfl
    · rfl
  · intro user2 sid2 allowNR q hq
    unfold student_delete_submission
    repeat' split
    all_goals try rfl
    exact remove_disk_file_if_local_frame fs _ q hq
  · intro hemp hfile hrel
    simp [admin_delete_submission, hadmin, hsub, hnofb, hemp, hfile, hrel,
      FS.unlink]

/-- Witness for C6: deleting the submission whose stored path was tampered
to `/uploads/../../../etc/passwd` succeeds but leaves the foreign
`/etc/passwd` untouched (admin and student routes), while the untampered
fixture blob inside the root is removed by an admin delete. -/
theorem C6_delete_blob_containment_witness :
    ((admin_delete_submission dbT fsT adminU 9 true).1 = .ok ()) ∧
    ((admin_delete_submission dbT fsT adminU 9 true).2.2
        ⟨true, ["etc", "passwd"]⟩ = fsT ⟨true, ["etc", "passwd"]⟩) ∧
    ((student_delete_submission db0 fs0 studentU 1 false).2.2
        ⟨true, ["etc", "passwd"]⟩ = fs0 ⟨true, ["etc", "passwd"]⟩) ∧
    ((admin_delete_submission db0 fs0 adminU 1 true).2.2
        (resolvePath (disk_path_from_public subPending.file_path)) = none) :=
  ⟨((C6_delete_blob_containment dbT fsT adminU 9 subTampered rfl rfl
      rfl).1).1,
   (C6_delete_blob_containment dbT fsT adminU 9 subTampered rfl rfl
      rfl).2.1 ⟨true, ["etc", "passwd"]⟩ rfl,
   (C6_delete_blob_containment db0 fs0 adminU 1 subPending rfl rfl
      rfl).2.2.1 studentU 1 false ⟨true, ["etc", "passwd"]⟩ rfl,
   (C6_delete_blob_containment db0 fs0 adminU 1 subPending rfl rfl
      rfl).2.2.2 (by decide) rfl rfl⟩

/-! ### C8 -/

/-- C8: in `replace_file`, the previous blob is unlinked only after a
successful database commit (in every execution, for any commit outcome);
every successful replacement stamps `submitted_at` with the current time;
and when the commit fails, the newly written file is removed, every other
path — in particular the old blob — is left as it was, and the database is
unchanged. -/
theorem C8_replace_file_commit_order (db : DB) (fs : FS) (now : Int)
    (maxMb : Nat) (user : User) (sid : Int) (fn : String)
    (chunks : List (List Nat)) (hex : String) (sub : Submission)
    (hsub : db.findSubmission sid = some sub)
    (hname : joinPath UPLOAD_DIR (pathName (public_path_for
        (unique_disk_name hex (safe_name fn)))) =
      joinPath UPLOAD_DIR (unique_disk_name hex (safe_name fn)))
    (hdiff : resolvePath (joinPath UPLOAD_DIR (pathName sub.file_path)) ≠
      resolvePath (joinPath UPLOAD_DIR
        (unique_disk_name hex (safe_name fn)))) :
    (∀ cOk, unlink_only_after_commit
      (replace_submission_file db fs now maxMb user sid fn chunks hex
        cOk).2.2.2
      (resolvePath (joinPath UPLOAD_DIR (pathName sub.file_path)))) ∧
    (∀ cOk r,
      (replace_submission_file db fs now maxMb user sid fn chunks hex
        cOk).1 = .ok r → r.submitted_at = now) ∧
    (require_student_ok user = true →
     sub.student_id = user.id →
     (sub.status = "Pending" ∨ sub.status = "NeedsRevision") →
     (lowerStr (pathSuffix (safe_name fn)) = "" ∨
       ALLOWED_EXTS.contains (lowerStr (pathSuffix (safe_name fn))) = true) →
     (∃ w t, stream_chunks maxMb 0 [] chunks = .ok (w, t)) →
     isRelativeTo (resolvePath (joinPath UPLOAD_DIR
         (unique_disk_name hex (safe_name fn)))) (resolvePath UPLOAD_DIR) =
       true →
      (replace_submission_file db fs now maxMb user sid fn chunks hex
          false).1 = .error ⟨500, "Failed to replace submission file"⟩ ∧
      (replace_submission_file db fs now maxMb user sid fn chunks hex
          false).2.1 = db ∧
      (replace_submission_file db fs now maxMb user sid fn chunks hex
          false).2.2.1 (resolvePath (joinPath UPLOAD_DIR
            (unique_disk_name hex (safe_name fn)))) = none ∧
      ∀ q, q ≠ resolvePath (joinPath UPLOAD_DIR
          (unique_disk_name hex (safe_name fn))) →
        (replace_submission_file db fs now maxMb user sid fn chunks hex
          false).2.2.1 q = fs q) := by
  refine ⟨?_, ?_, ?_⟩
  · intro cOk
    unfold replace_submission_file
    try simp only []
    split
    · intro i h
      simp at h
    split
    · intro i h
      simp at h
    split
    · intro i h
      simp at h
    split
    · intro i h
      simp at h
    split
    · intro i h
      simp at h
    split
    · intro i h
      rcases i with _ | _ | i <;> simp_all
    · split
      · split
        · unfold remove_disk_file_if_local_ev
          try simp only []
          split
          · intro i h
            rcases i with _ | _ | _ | i <;> simp_all
            exact ⟨1, by omega, rfl⟩
          · intro i h
            rcases i with _ | _ | i <;> simp_all
        · intro i h
          rcases i with _ | _ | i <;> simp_all
      · unfold remove_disk_file_if_local_ev
        try simp only []
        rw [hname]
        split
        · intro i h
          rcases i with _ | _ | _ | _ | i <;> simp_all
        · intro i h
          rcases i with _ | _ | _ | i <;> simp_all
  · intro cOk r h
    unfold replace_submission_file at h
    simp only [] at h
    split at h
    · simp at h
    split at h
    · simp at h
    split at h
    · simp at h
    split at h
    · simp at h
    split at h
    · simp at h
    split at h
    · simp at h
    split at h
    · rw [Except.ok.injEq] at h
      subst h
      rfl
    · simp at h
  · intro hrole hown hstat hext hstream hrel
    rcases hstream with ⟨w, t, hstream⟩
    have hcp : ¬(¬ lowerStr (pathSuffix (safe_name fn)) = "" ∧
        lowerStr (pathSuffix (safe_name fn)) ∉ ALLOWED_EXTS) := by
      rcases hext with he | he
      · simp [he]
      · have hm : lowerStr (pathSuffix (safe_name fn)) ∈ ALLOWED_EXTS := by
          simpa using he
        simp [hm]
    refine ⟨?_, ?_, ?_, ?_⟩
    · rcases hstat with h | h <;>
        simp [replace_submission_file, hrole, hsub,
          ensure_submission_ownership, hown, validate_submission_for_edit, h,
          hcp, save_stream_to_disk, hstream]
    · rcases hstat with h | h <;>
        simp [replace_submission_file, hrole, hsub,
          ensure_submission_ownership, hown, validate_submission_for_edit, h,
          hcp, save_stream_to_disk, hstream]
    · rcases hstat with h | h <;>
        simp [replace_submission_file, hrole, hsub,
          ensure_submission_ownership, hown, validate_submission_for_edit, h,
          hcp, save_stream_to_disk, hstream, remove_disk_file_if_local_ev,
          hname, FS.unlink, FS.write, FS.isFile, hrel]
    · intro q hq
      rcases hstat with h | h <;>
        simp [replace_submission_file, hrole, hsub,
          ensure_submission_ownership, hown, validate_submission_for_edit, h,
          hcp, save_stream_to_disk, hstream, remove_disk_file_if_local_ev,
          hname, FS.unlink, FS.write, FS.isFile, hrel, hq]

/-- Witness for C8: on the fixture store, the trace of the successful
replacement unlinks the old blob only after the commit event, the returned row
carries the new timestamp, and a failed commit removes the new file while
keeping the old blob. -/
theorem C8_replace_file_commit_order_witness :
    (∃ j, j < 2 ∧
      (replace_submission_file db0 fs0 60 50 studentU 1 "new.pdf" [[9]] "dd"
        true).2.2.2.get? j = some (.dbCommit true)) ∧
    (subReplacedC1.submitted_at = 60) ∧
    ((replace_submission_file db0 fs0 60 50 studentU 1 "new.pdf" [[9]] "dd"
        false).1 = .error ⟨500, "Failed to replace submission file"⟩) ∧
    ((replace_submission_file db0 fs0 60 50 studentU 1 "new.pdf" [[9]] "dd"
        false).2.2.1 (resolvePath (joinPath UPLOAD_DIR
          (unique_disk_name "dd" (safe_name "new.pdf")))) = none) ∧
    ((replace_submission_file db0 fs0 60 50 studentU 1 "new.pdf" [[9]] "dd"
        false).2.2.1 (resolvePath (joinPath UPLOAD_DIR "aa_report.pdf")) =
      fs0 (resolvePath (joinPath UPLOAD_DIR "aa_report.pdf"))) :=
  ⟨(C8_replace_file_commit_order db0 fs0 60 50 studentU 1 "new.pdf" [[9]]
      "dd" subPending rfl rfl (by decide)).1 true 2 rfl,
   (C8_replace_file_commit_order db0 fs0 60 50 studentU 1 "new.pdf" [[9]]
      "dd" subPending rfl rfl (by decide)).2.1 true subReplacedC1 rfl,
   ((C8_replace_file_commit_order db0 fs0 60 50 studentU 1 "new.pdf" [[9]]
      "dd" subPending rfl rfl (by decide)).2.2 rfl rfl (Or.inl rfl)
      (Or.inr rfl) ⟨[9], 1, rfl⟩ rfl).1,
   ((C8_replace_file_commit_order db0 fs0 60 50 studentU 1 "new.pdf" [[9]]
      "dd" subPending rfl rfl (by decide)).2.2 rfl rfl (Or.inl rfl)
      (Or.inr rfl) ⟨[9], 1, rfl⟩ rfl).2.2.1,
   ((C8_replace_file_commit_order db0 fs0 60 50 studentU 1 "new.pdf" [[9]]
      "dd" subPending rfl rfl (by decide)).2.2 rfl rfl (Or.inl rfl)
      (Or.inr rfl) ⟨[9], 1, rfl⟩ rfl).2.2.2
      (resolvePath (joinPath UPLOAD_DIR "aa_report.pdf")) (by decide)⟩

/-! ### C9 -/

/-- C9: a feedback row cannot outlive its submission — after any successful
delete of a submission, by the owning student or by an admin, no feedback
row referencing that submission id remains in the store.  (The code
achieves this by refusing the delete outright when a feedback row exists:
the un-cascaded ORM delete would nullify the NOT NULL `submission_id`
column and the commit fails, so the only deletes that succeed are of
submissions with no feedback.) -/
theorem C9_feedback_never_outlives (db : DB) (fs : FS) (user : User)
    (sid : Int) :
    (∀ allowNR,
      (student_delete_submission db fs user sid allowNR).1 = .ok () →
      ∀ fb ∈ (student_delete_submission db fs user sid allowNR).2.1.feedbacks,
        fb.submission_id ≠ sid) ∧
    (∀ deleteFile,
      (admin_delete_submission db fs user sid deleteFile).1 = .ok () →
      ∀ fb ∈ (admin_delete_submission db fs user sid
          deleteFile).2.1.feedbacks,
        fb.submission_id ≠ sid) := by
  constructor
  · intro allowNR
    unfold student_delete_submission
    try simp only []
    split
    · intro hOk
      simp at hOk
    split
    · intro hOk
      simp at hOk
    split
    · intro hOk
      simp at hOk
    split
    · intro hOk
      simp at hOk
    split
    · intro hOk
      simp at hOk
    · rename_i hnofb
      intro _ fb hfb
      simp [DB.hasFeedbackFor] at hnofb
      simp only [] at hfb
      exact hnofb fb hfb
  · intro deleteFile
    unfold admin_delete_submission
    try simp only []
    split
    · intro hOk
      simp at hOk
    split
    · intro hOk
      simp at hOk
    split
    · intro hOk
      simp at hOk
    · rename_i hnofb
      intro _ fb hfb
      simp [DB.hasFeedbackFor] at hnofb
      simp only [] at hfb
      exact hnofb fb hfb

/-- Witness for C9: both delete routes succeed on the feedback-free
submission 1 and the surviving feedback row references submission 2 only. -/
theorem C9_feedback_never_outlives_witness :
    fbGraded.submission_id ≠ 1 ∧ fbGraded.submission_id ≠ 1 :=
  ⟨(C9_feedback_never_outlives db0 fs0 studentU 1).1 false rfl fbGraded
     (by
       have e : (student_delete_submission db0 fs0 studentU 1
           false).2.1.feedbacks = [fbGraded] := rfl
       rw [e]
       exact List.mem_cons_self _ _),
   (C9_feedback_never_outlives db0 fs0 adminU 1).2 true rfl fbGraded
     (by
       have e : (admin_delete_submission db0 fs0 adminU 1
           true).2.1.feedbacks = [fbGraded] := rfl
       rw [e]
       exact List.mem_cons_self _ _)⟩

end DentalSub
